import Mathlib

/-!
# Verification of the oracle.monitor metric registry and sampling pipeline

Shallow embedding of `src/metrics/base_metric.py` (the `BaseMetric` contract
and the `MetricRegistry`) together with the representative metric plugins
`session_overview.py`, `wait_events.py`, `top_sessions.py`,
`tablespace_usage.py` and `redo_metrics.py`.

Modelling conventions:
* Python dictionaries become association lists `List (String × α)` with
  CPython's insertion-order semantics: updating an existing key keeps its
  position, a fresh key is appended at the end (`dictInsert`).
* A loosely-typed JSON-like payload value is the inductive `Val`; a metric
  payload (a Python `Dict`) is `Payload := List (String × Val)`.
* `None`-or-dict arguments become `Option Payload`; Python truthiness of such
  a value is `pyTruthy` (`None` and `{}` are falsy).
* A raised exception is represented by its message (`String`); code that can
  raise returns `Except String α`; a `try/except` block is a `match` on that.
* Logging side effects are returned explicitly: the registry-level
  `logging.error` channel of `collect_all` is the second component of its
  result, a metric's private logger is the `List String` (or record list)
  component of the corresponding function's result.
* Wall-clock readings (`datetime.now().isoformat()`) become explicit `String`
  parameters, one per distinct `now()` call site.
-/

/-- A loosely-typed runtime value (the payloads are Python dicts of
strings, numbers, `None`, lists and nested dicts). Numbers are modelled as
rationals, which embeds both Python ints and the decimal floats used here. -/
inductive Val : Type where
  | str (s : String)
  | num (q : ℚ)
  | nil
  | list (vs : List Val)
  | obj (fields : List (String × Val))

/-- A metric payload: a Python `Dict[str, Any]` in insertion order. -/
def Payload : Type := List (String × Val)

instance : Inhabited Payload := ⟨([] : List (String × Val))⟩

/-- `d[k] = v` on a Python dict: update in place if the key exists
(keeping its position), otherwise append at the end. -/
def dictInsert (k : String) (v : α) : List (String × α) → List (String × α)
  | [] => [(k, v)]
  | (k', v') :: rest =>
      if k' = k then (k, v) :: rest else (k', v') :: dictInsert k v rest

/-- `d.get(k)` on a Python dict: `some` of the stored value, or `none`. -/
def dictLookup (k : String) : List (String × α) → Option α
  | [] => none
  | (k', v) :: rest => if k' = k then some v else dictLookup k rest

/-- `d.get(k)` on a payload where Python's default `None` is the `Val.nil`
value (used where the looked-up value flows on as data, e.g. bind values of
an `INSERT`). -/
def dictGet (d : Payload) (k : String) : Val :=
  (dictLookup k d).getD Val.nil

/-- The length of a looked-up value when it is a list (used to state that
a payload's `count` field matches its primary record list). -/
def listLen : Option Val → Option ℕ
  | some (Val.list vs) => some vs.length
  | _ => none

/-- Python truthiness of a `Dict`-or-`None` value: `None` and the empty
dict are falsy, a non-empty dict is truthy. -/
def pyTruthy : Option Payload → Bool
  | none => false
  | some p => !p.isEmpty

/-- The opaque live Oracle connection handed to `collect`. -/
structure Conn : Type where
  mk ::

/-- Outcome of one call to a metric's `collect(connection)`: either an
uncaught exception escapes, or a `Optional[Dict]` is returned. -/
inductive CollectOutcome : Type where
  | raises (e : String)
  | returns (p : Option Payload)

/-- One storage row: the tuple of bind values of a single `INSERT`. -/
def Row : Type := List Val

/-- A metric instance as the registry sees it (`BaseMetric`): its identity
and category metadata, the `enabled` gate, and its polymorphic `collect`
and `_store_data_impl` behaviours. -/
structure Metric : Type where
  name : String
  category : String
  enabled : Bool
  collect : Conn → CollectOutcome
  store_impl : Payload → Option String → List Row

/-- `BaseMetric.store_data`: the `if not data: return` guard in front of
`_store_data_impl`; result is the list of rows inserted. -/
def Metric.store_data (m : Metric) (data : Option Payload) (sample_id : Option String) :
    List Row :=
  match data with
  | none => []
  | some p => if p.isEmpty then [] else m.store_impl p sample_id

/-- The JSONL record appended by `BaseMetric.log_data`, as the ordered
key/value pairs of the serialized `log_entry` dict. -/
def LogEntry : Type := List (String × Val)

/-- Python's `s or fallback` on an optional string: `None` and `""` are
falsy and yield the fallback. -/
def pyStrOr (s : Option String) (fallback : String) : String :=
  match s with
  | none => fallback
  | some t => if t = "" then fallback else t

/-- `BaseMetric.log_data(data, sample_id)`: the list of records appended to
the metric's private JSONL channel by one call. `now` is the
`datetime.now().isoformat()` used for the `timestamp` field, `now'` the
second `now()` call in the `sample_id or ...` fallback (taken when
`sample_id` is `None` or the empty string). -/
def Metric.log_data (m : Metric) (data : Option Payload) (sample_id : Option String)
    (now now' : String) : List LogEntry :=
  match data with
  | none => []
  | some p =>
      if p.isEmpty then []
      else
        [[("timestamp", Val.str now),
          ("metric", Val.str m.name),
          ("sample_id", Val.str (pyStrOr sample_id now')),
          ("data", Val.obj p)]]

/-- `MetricRegistry`: the name index `metrics` and the category index
`categories`, both Python dicts in insertion order. -/
structure Registry : Type where
  metrics : List (String × Metric)
  categories : List (String × List Metric)

/-- `MetricRegistry()`. -/
def Registry.empty : Registry := ⟨[], []⟩

/-- `categories.setdefault(category, []).append(metric)` as written in
`register`: create the bucket on first use, then append. -/
def bucketAppend (cat : String) (m : Metric) :
    List (String × List Metric) → List (String × List Metric)
  | [] => [(cat, [m])]
  | (c, ms) :: rest =>
      if c = cat then (c, ms ++ [m]) :: rest else (c, ms) :: bucketAppend cat m rest

/-- `MetricRegistry.register`. -/
def Registry.register (r : Registry) (m : Metric) : Registry :=
  { metrics := dictInsert m.name m r.metrics
    categories := bucketAppend m.category m r.categories }

/-- `MetricRegistry.get_metric`. -/
def Registry.get_metric (r : Registry) (name : String) : Option Metric :=
  dictLookup name r.metrics

/-- `MetricRegistry.get_metrics_by_category` (`.get(category, [])`). -/
def Registry.get_metrics_by_category (r : Registry) (cat : String) : List Metric :=
  (dictLookup cat r.categories).getD []

/-- `MetricRegistry.get_all_metrics` (`list(self.metrics.values())`). -/
def Registry.get_all_metrics (r : Registry) : List Metric :=
  r.metrics.map Prod.snd

/-- `MetricRegistry.get_enabled_metrics`. -/
def Registry.get_enabled_metrics (r : Registry) : List Metric :=
  r.get_all_metrics.filter (·.enabled)

/-- The `logging.error(f"Error collecting {metric.name}: {e}")` message of
`collect_all`'s defensive handler. -/
def errMsg (name e : String) : String :=
  "Error collecting " ++ name ++ ": " ++ e

/-- Loop body accumulation of `MetricRegistry.collect_all`: walks the
enabled metrics in order, carrying the `results` dict and the root logger's
error records. -/
def collectAllAux (conn : Conn) :
    List Metric → List (String × Payload) → List String →
      List (String × Payload) × List String
  | [], res, errs => (res, errs)
  | m :: rest, res, errs =>
      match m.collect conn with
      | CollectOutcome.raises e => collectAllAux conn rest res (errs ++ [errMsg m.name e])
      | CollectOutcome.returns none => collectAllAux conn rest res errs
      | CollectOutcome.returns (some p) =>
          if p.isEmpty then collectAllAux conn rest res errs
          else collectAllAux conn rest (dictInsert m.name p res) errs

/-- `MetricRegistry.collect_all`: the returned `results` mapping together
with the error-severity records written to the root logging channel. -/
def Registry.collect_all (r : Registry) (conn : Conn) :
    List (String × Payload) × List String :=
  collectAllAux conn r.get_enabled_metrics [] []

/-- `MetricRegistry.log_all(data, sample_id)`: the JSONL records appended
across all metric channels, each tagged with the owning metric's name
(= its private channel). -/
def Registry.log_all (r : Registry) (results : List (String × Option Payload))
    (sample_id : Option String) (now now' : String) : List (String × LogEntry) :=
  (results.map fun e =>
    match r.get_metric e.1 with
    | none => []
    | some m =>
        if pyTruthy e.2 then (m.log_data e.2 sample_id now now').map fun rec => (m.name, rec)
        else []).flatten

/-- `MetricRegistry.store_all(db_path, data, sample_id)`: the rows inserted
across all metric tables, each tagged with the owning metric's name. -/
def Registry.store_all (r : Registry) (results : List (String × Option Payload))
    (sample_id : Option String) : List (String × Row) :=
  (results.map fun e =>
    match r.get_metric e.1 with
    | none => []
    | some m =>
        if pyTruthy e.2 then (m.store_data e.2 sample_id).map fun row => (m.name, row)
        else []).flatten

/-- Well-formedness of a reachable registry: the name index is keyed by the
metrics' own names and, being a dict, has no duplicate keys. `register`
preserves this and `Registry.empty` satisfies it. -/
def Registry.WF (r : Registry) : Prop :=
  (r.metrics.map Prod.fst).Nodup ∧ ∀ p ∈ r.metrics, (Prod.snd p).name = Prod.fst p

/-! ## Concrete metric plugins

Each plugin's `collect` is embedded as a function of an abstract backend:
the backend maps each `cursor.execute` call site to its outcome
(`Except String rows`, where `error e` is a raised `oracledb.Error` with
message `e`). The result type `Except String (Option Payload × List String)`
records whether an exception escapes `collect` (`error`), and otherwise the
returned `Optional[Dict]` together with the records written to the metric's
private logger. -/

/-- `v or 0` then `float(...)` / `int(...)` applied to a numeric-or-NULL
column value: `None` (and `0`) become `0`. -/
def pyNumOr0 (v : Option ℚ) : ℚ := v.getD 0

/-- `int(v or 0)` on an integer-or-NULL column value. -/
def pyIntOr0 (v : Option ℤ) : ℤ := v.getD 0

/-- A string-or-NULL column value passed through unchanged. -/
def valOfOptStr : Option String → Val
  | none => Val.nil
  | some s => Val.str s

/-- An integer-or-NULL column value passed through unchanged. -/
def valOfOptInt : Option ℤ → Val
  | none => Val.nil
  | some n => Val.num n

/-- Python truthiness of an `Optional[int]` statistic id (`all([...])`
inside `collect`): `None` and `0` are falsy. -/
def pyTruthyOptInt : Option ℤ → Bool
  | none => false
  | some n => n != 0

/-- The row-insertion loop of a list-shaped `_store_data_impl`: one row per
element in order; `none` aborts the loop like the raised `TypeError` of a
non-dict element. -/
def rowsOfVals (f : Val → Option Row) : List Val → Option (List Row)
  | [] => some []
  | v :: vs =>
      match f v with
      | none => none
      | some row => (rowsOfVals f vs).map fun rows => row :: rows

namespace SessionOverview

/-- The row of `session_overview`'s main aggregate query. -/
structure SORow : Type where
  total_sessions : Option ℤ
  active_sessions : Option ℤ
  inactive_sessions : Option ℤ
  blocked_sessions : Option ℤ
  logical_reads_mb : Option ℚ
  physical_reads_mb : Option ℚ
  cpu_seconds : Option ℚ

/-- Backend of `SessionOverviewMetric.collect`: the `v$statname` lookup per
statistic name, and the main `v$session` aggregate keyed by the three
statistic ids. -/
structure SOBackend : Type where
  statname : String → Except String (Option ℤ)
  mainQuery : ℤ → ℤ → ℤ → Except String (Option SORow)

/-- `SessionOverviewMetric._get_statistic_id`: its own `try/except` turns a
raised `oracledb.Error` into `None`, silently. -/
def getStatisticId (b : SOBackend) (statName : String) : Option ℤ :=
  match b.statname statName with
  | Except.error _ => none
  | Except.ok r => r

/-- The payload built from a fetched row (each count `row[i] or 0`, each
measure `float(row[i] or 0)`). -/
def payloadOfRow (row : SORow) : Payload :=
  [("total_sessions", Val.num (pyIntOr0 row.total_sessions)),
   ("active_sessions", Val.num (pyIntOr0 row.active_sessions)),
   ("inactive_sessions", Val.num (pyIntOr0 row.inactive_sessions)),
   ("blocked_sessions", Val.num (pyIntOr0 row.blocked_sessions)),
   ("logical_reads_mb", Val.num (pyNumOr0 row.logical_reads_mb)),
   ("physical_reads_mb", Val.num (pyNumOr0 row.physical_reads_mb)),
   ("cpu_seconds", Val.num (pyNumOr0 row.cpu_seconds))]

/-- `SessionOverviewMetric.collect`. -/
def collect (b : SOBackend) : Except String (Option Payload × List String) :=
  let stat_logical := getStatisticId b "session logical reads"
  let stat_physical := getStatisticId b "physical reads"
  let stat_cpu := getStatisticId b "CPU used by this session"
  if pyTruthyOptInt stat_logical && pyTruthyOptInt stat_physical &&
      pyTruthyOptInt stat_cpu then
    match b.mainQuery (stat_logical.getD 0) (stat_physical.getD 0) (stat_cpu.getD 0) with
    | Except.error e => Except.ok (none, ["Error collecting session overview: " ++ e])
    | Except.ok none => Except.ok (none, [])
    | Except.ok (some row) => Except.ok (some (payloadOfRow row), [])
  else
    Except.ok (none, [])

/-- `SessionOverviewMetric._store_data_impl`: one `INSERT` into
`session_overview_history`. `nowSid` is the `now()` of the `sample_id or ...`
fallback, `nowTs` the `now()` bound as `timestamp`. -/
def store_impl (data : Payload) (sample_id : Option String) (nowSid nowTs : String) :
    List Row :=
  [[Val.str (pyStrOr sample_id nowSid), Val.str nowTs,
    dictGet data "total_sessions", dictGet data "active_sessions",
    dictGet data "inactive_sessions", dictGet data "blocked_sessions",
    dictGet data "logical_reads_mb", dictGet data "physical_reads_mb",
    dictGet data "cpu_seconds"]]

/-- `store_data` = the `if not data: return` guard of `BaseMetric.store_data`
in front of `_store_data_impl`. -/
def store_data (data : Option Payload) (sample_id : Option String)
    (nowSid nowTs : String) : List Row :=
  match data with
  | none => []
  | some p => if p.isEmpty then [] else store_impl p sample_id nowSid nowTs

end SessionOverview

namespace WaitEvents

/-- A row of the `v$system_event` query. -/
structure WaitRow : Type where
  event : Option String
  total_waits : Option ℤ
  total_wait_seconds : Option ℚ
  avg_wait_ms : Option ℚ

/-- One event record of the payload (`r[0]`/`r[1]` raw,
`float(r[2] or 0)`, `float(r[3] or 0)`). -/
def toEvent (r : WaitRow) : Val :=
  Val.obj
    [("event", valOfOptStr r.event),
     ("total_waits", valOfOptInt r.total_waits),
     ("total_wait_seconds", Val.num (pyNumOr0 r.total_wait_seconds)),
     ("avg_wait_ms", Val.num (pyNumOr0 r.avg_wait_ms))]

/-- `WaitEventsMetric.collect`: the backend is the single query, keyed by
the `limit` bind value (`kwargs.get('limit', 20)`). -/
def collect (b : ℤ → Except String (List WaitRow)) (limit : Option ℤ) :
    Except String (Option Payload × List String) :=
  match b (limit.getD 20) with
  | Except.error e => Except.ok (none, ["Error collecting wait events: " ++ e])
  | Except.ok rows =>
      let events := rows.map toEvent
      Except.ok (some [("wait_events", Val.list events),
                       ("count", Val.num events.length)], [])

end WaitEvents

namespace TopSessions

/-- A row of `top_sessions`' main query. -/
structure TSRow : Type where
  sid : Option ℤ
  serial : Option ℤ
  username : Option String
  program : Option String
  status : Option String
  logical_reads_mb : Option ℚ
  cpu_seconds : Option ℚ
  event : Option String
  sql_id : Option String
  machine : Option String
  module : Option String

/-- Backend of `TopSessionsMetric.collect`: statistic-id lookup plus the
main query keyed by `(stat_logical, stat_cpu, limit)`. -/
structure TSBackend : Type where
  statname : String → Except String (Option ℤ)
  mainQuery : ℤ → ℤ → ℤ → Except String (List TSRow)

/-- `TopSessionsMetric._get_statistic_id` (same silent-`None` handler as
`session_overview`). -/
def getStatisticId (b : TSBackend) (statName : String) : Option ℤ :=
  match b.statname statName with
  | Except.error _ => none
  | Except.ok r => r

/-- One session record of the payload. -/
def toSession (r : TSRow) : Val :=
  Val.obj
    [("sid", valOfOptInt r.sid),
     ("serial", valOfOptInt r.serial),
     ("username", Val.str (pyStrOr r.username "N/A")),
     ("program", Val.str (pyStrOr r.program "N/A")),
     ("status", Val.str (pyStrOr r.status "N/A")),
     ("logical_reads_mb", Val.num (pyNumOr0 r.logical_reads_mb)),
     ("cpu_seconds", Val.num (pyNumOr0 r.cpu_seconds)),
     ("event", Val.str (pyStrOr r.event "N/A")),
     ("sql_id", Val.str (pyStrOr r.sql_id "N/A")),
     ("machine", Val.str (pyStrOr r.machine "N/A")),
     ("module", Val.str (pyStrOr r.module "N/A"))]

/-- `TopSessionsMetric.collect`. -/
def collect (b : TSBackend) (limit : Option ℤ) :
    Except String (Option Payload × List String) :=
  let stat_logical := getStatisticId b "session logical reads"
  let stat_cpu := getStatisticId b "CPU used by this session"
  if pyTruthyOptInt stat_logical && pyTruthyOptInt stat_cpu then
    match b.mainQuery (stat_logical.getD 0) (stat_cpu.getD 0) (limit.getD 20) with
    | Except.error e => Except.ok (none, ["Error collecting top sessions: " ++ e])
    | Except.ok rows =>
        let sessions := rows.map toSession
        Except.ok (some [("sessions", Val.list sessions),
                         ("count", Val.num sessions.length)], [])
  else
    Except.ok (none, [])

/-- The bind-value tuple of one `INSERT INTO top_sessions_history` row for
one session dict `fields`. -/
def rowOfSession (sample_id timestamp : String) (fields : Payload) : Row :=
  [Val.str sample_id, Val.str timestamp,
   dictGet fields "sid", dictGet fields "serial", dictGet fields "username",
   dictGet fields "program", dictGet fields "status",
   dictGet fields "logical_reads_mb", dictGet fields "cpu_seconds",
   dictGet fields "event", dictGet fields "sql_id", dictGet fields "machine",
   dictGet fields "module"]

/-- One loop iteration of `_store_data_impl`: the element must be a dict
(`session.get` on anything else raises, modelled as `none`). -/
def rowOfVal (sample_id timestamp : String) : Val → Option Row
  | Val.obj fields => some (rowOfSession sample_id timestamp fields)
  | _ => none

/-- `TopSessionsMetric._store_data_impl`: early return when `'sessions'` is
absent, else one row per element of `data['sessions']`. `none` models the
`TypeError` raised when the payload is not list-of-dict shaped; `now` is the
single `datetime.now().isoformat()` (also the `sample_id or timestamp`
fallback). -/
def store_impl (data : Payload) (sample_id : Option String) (now : String) :
    Option (List Row) :=
  match dictLookup "sessions" data with
  | none => some []
  | some (Val.list sessions) => rowsOfVals (rowOfVal (pyStrOr sample_id now) now) sessions
  | some _ => none

/-- `store_data` with the `if not data: return` guard of the base class. -/
def store_data (data : Option Payload) (sample_id : Option String) (now : String) :
    Option (List Row) :=
  match data with
  | none => some []
  | some p => if p.isEmpty then some [] else store_impl p sample_id now

end TopSessions

namespace TablespaceUsage

/-- A row of the `dba_tablespaces` query. -/
structure TbsRow : Type where
  tablespace : Option String
  contents : Option String
  status : Option String
  used_mb : Option ℚ
  allocated_mb : Option ℚ
  max_mb : Option ℚ
  free_mb : Option ℚ
  pct_used : Option ℚ
  autoextend_headroom_mb : Option ℚ
  files : Option ℤ
  autoextend_files : Option ℤ
  autoextend_capable : Option ℤ

/-- One tablespace record of the payload (strings raw, measures
`float(row[i] or 0)`, counts `int(row[i] or 0)`). -/
def toTablespace (r : TbsRow) : Val :=
  Val.obj
    [("tablespace", valOfOptStr r.tablespace),
     ("type", valOfOptStr r.contents),
     ("status", valOfOptStr r.status),
     ("used_mb", Val.num (pyNumOr0 r.used_mb)),
     ("allocated_mb", Val.num (pyNumOr0 r.allocated_mb)),
     ("max_mb", Val.num (pyNumOr0 r.max_mb)),
     ("free_mb", Val.num (pyNumOr0 r.free_mb)),
     ("pct_used", Val.num (pyNumOr0 r.pct_used)),
     ("autoextend_headroom_mb", Val.num (pyNumOr0 r.autoextend_headroom_mb)),
     ("files", Val.num (pyIntOr0 r.files)),
     ("autoextend_files", Val.num (pyIntOr0 r.autoextend_files)),
     ("autoextend_capable", Val.num (pyIntOr0 r.autoextend_capable))]

/-- `TablespaceUsageMetric.collect`: a single parameterless query. -/
def collect (b : Except String (List TbsRow)) :
    Except String (Option Payload × List String) :=
  match b with
  | Except.error e => Except.ok (none, ["Error collecting tablespace usage: " ++ e])
  | Except.ok rows =>
      let tablespaces := rows.map toTablespace
      Except.ok (some [("tablespaces", Val.list tablespaces),
                       ("count", Val.num tablespaces.length)], [])

/-- The bind-value tuple of one `INSERT INTO tablespace_usage_history` row
for one tablespace dict `fields`. -/
def rowOfTablespace (sample_id timestamp : String) (fields : Payload) : Row :=
  [Val.str sample_id, Val.str timestamp,
   dictGet fields "tablespace", dictGet fields "type", dictGet fields "status",
   dictGet fields "used_mb", dictGet fields "allocated_mb",
   dictGet fields "max_mb", dictGet fields "free_mb", dictGet fields "pct_used",
   dictGet fields "autoextend_headroom_mb", dictGet fields "files",
   dictGet fields "autoextend_files", dictGet fields "autoextend_capable"]

/-- One loop iteration of `_store_data_impl`: the element must be a dict
(`ts.get` on anything else raises, modelled as `none`). -/
def rowOfVal (sample_id timestamp : String) : Val → Option Row
  | Val.obj fields => some (rowOfTablespace sample_id timestamp fields)
  | _ => none

/-- `TablespaceUsageMetric._store_data_impl`: early return when
`'tablespaces'` is absent, else one row per element of `data['tablespaces']`
(`none` models the `TypeError` on a non list-of-dict payload; `now` is the
single `datetime.now().isoformat()` and the `sample_id or timestamp`
fallback). -/
def store_impl (data : Payload) (sample_id : Option String) (now : String) :
    Option (List Row) :=
  match dictLookup "tablespaces" data with
  | none => some []
  | some (Val.list tablespaces) => rowsOfVals (rowOfVal (pyStrOr sample_id now) now) tablespaces
  | some _ => none

/-- `store_data` with the `if not data: return` guard of the base class. -/
def store_data (data : Option Payload) (sample_id : Option String) (now : String) :
    Option (List Row) :=
  match data with
  | none => some []
  | some p => if p.isEmpty then some [] else store_impl p sample_id now

end TablespaceUsage

namespace RedoMetrics

/-- `RedoMetricsMetric._store_data_impl`: unconditionally one `INSERT` into
`redo_metrics_history`; `now` is the single `timestamp = now()` value, which
is also the `sample_id or timestamp` fallback. -/
def store_impl (data : Payload) (sample_id : Option String) (now : String) :
    List Row :=
  [[Val.str (pyStrOr sample_id now), Val.str now,
    dictGet data "redo_size", dictGet data "redo_writes",
    dictGet data "redo_write_time"]]

/-- `store_data` with the `if not data: return` guard of the base class. -/
def store_data (data : Option Payload) (sample_id : Option String) (now : String) :
    List Row :=
  match data with
  | none => []
  | some p => if p.isEmpty then [] else store_impl p sample_id now

end RedoMetrics

/-! ## Concrete fixtures

Small concrete registries, metrics and backends used to evaluate the
development on explicit inputs (the spec's concrete scenarios in §8). -/

/-- A metric instance with the given metadata and `collect` behaviour and a
storage implementation that writes nothing. -/
def mkMetric (nm cat : String) (en : Bool) (c : Conn → CollectOutcome) : Metric :=
  { name := nm, category := cat, enabled := en, collect := c
    store_impl := fun _ _ => [] }

/-- Scenario metric `A`: enabled, returns `{"x": [1, 2]}`. -/
def mAlpha : Metric :=
  mkMetric "A" "sessions" true
    (fun _ => CollectOutcome.returns (some [("x", Val.list [Val.num 1, Val.num 2])]))

/-- Scenario metric `B`: enabled, returns `None`. -/
def mBeta : Metric :=
  mkMetric "B" "sessions" true (fun _ => CollectOutcome.returns none)

/-- Scenario metric `C`: disabled. -/
def mGamma : Metric :=
  mkMetric "C" "storage" false
    (fun _ => CollectOutcome.returns (some [("y", Val.num 2)]))

/-- Scenario metric `D`: enabled, `collect` raises a generic error. -/
def mDelta : Metric :=
  mkMetric "D" "performance" true (fun _ => CollectOutcome.raises "boom")

/-- Scenario metric `E`: enabled, returns `{"w": 4}`. -/
def mEps : Metric :=
  mkMetric "E" "performance" true
    (fun _ => CollectOutcome.returns (some [("w", Val.num 4)]))

/-- The §8 scenario-1 registry: `A` enabled with data, `B` enabled returning
`None`, `C` disabled. -/
def regSample : Registry :=
  ((Registry.empty.register mAlpha).register mBeta).register mGamma

/-- A registry whose enabled metrics are `A`, `D`, `E`, where only `D`
raises. -/
def regFail : Registry :=
  (((Registry.empty.register mAlpha).register mDelta).register mGamma).register mEps

/-- A registry whose enabled metrics (`A`, `E`) all succeed with non-empty
payloads; `C` is disabled. -/
def regOrder : Registry :=
  ((Registry.empty.register mAlpha).register mGamma).register mEps

/-- First `"Overview"` instance (enabled). -/
def mDup1 : Metric :=
  mkMetric "Overview" "sessions" true (fun _ => CollectOutcome.returns none)

/-- Second, distinct `"Overview"` instance (disabled). -/
def mDup2 : Metric :=
  mkMetric "Overview" "sessions" false (fun _ => CollectOutcome.returns none)

/-- A `session_overview` backend whose `v$statname` lookup raises and whose
main query would succeed: the raised backend error is swallowed by
`_get_statistic_id`. -/
def soBadStat : SessionOverview.SOBackend :=
  { statname := fun _ => Except.error "ORA-00942"
    mainQuery := fun _ _ _ => Except.ok (some ⟨some 5, some 3, some 2, some 0,
      some 10, some 4, some 1⟩) }

/-- A `session_overview` backend with working statistic lookups whose main
query raises. -/
def soMainErr : SessionOverview.SOBackend :=
  { statname := fun nm => Except.ok (some (if nm = "physical reads" then 42 else 7))
    mainQuery := fun _ _ _ => Except.error "ORA-01017" }

/-- A `top_sessions` backend returning one session row. -/
def tsOneRow : TopSessions.TSBackend :=
  { statname := fun _ => Except.ok (some 9)
    mainQuery := fun _ _ _ => Except.ok
      [{ sid := some 1, serial := some 2, username := some "SCOTT",
         program := none, status := some "ACTIVE",
         logical_reads_mb := some 12, cpu_seconds := some (5 / 2),
         event := none, sql_id := none, machine := none, module := none }] }

/-- A `tablespace_usage` backend returning two rows. -/
def tbsTwoRows : Except String (List TablespaceUsage.TbsRow) :=
  Except.ok
    [{ tablespace := some "SYSTEM", contents := some "PERMANENT",
       status := some "ONLINE", used_mb := some 100, allocated_mb := some 200,
       max_mb := some 400, free_mb := some 100, pct_used := some 50,
       autoextend_headroom_mb := some 200, files := some 1,
       autoextend_files := some 1, autoextend_capable := some 1 },
     { tablespace := some "USERS", contents := some "PERMANENT",
       status := some "ONLINE", used_mb := none, allocated_mb := none,
       max_mb := none, free_mb := none, pct_used := none,
       autoextend_headroom_mb := none, files := none,
       autoextend_files := none, autoextend_capable := none }]

/-- A `wait_events` backend returning one row. -/
def weOneRow : ℤ → Except String (List WaitEvents.WaitRow) :=
  fun _ => Except.ok
    [{ event := some "db file sequential read", total_waits := some 100,
       total_wait_seconds := some 3, avg_wait_ms := some (3 / 10) }]

/-- The §8 scenario-4 list payload
`{"sessions": [{"sid": 1, "cpu_seconds": 2.5}], "count": 1}`. -/
def oneSessionPayload : Payload :=
  [("sessions", Val.list [Val.obj [("sid", Val.num 1), ("cpu_seconds", Val.num (5 / 2))]]),
   ("count", Val.num 1)]

/-- The §8 scenario-5 scalar payload. -/
def redoPayload : Payload :=
  [("redo_size", Val.num 100), ("redo_writes", Val.num 5), ("redo_write_time", Val.num 3)]

/-- A one-record tablespace payload. -/
def oneTbsPayload : Payload :=
  [("tablespaces", Val.list [Val.obj [("tablespace", Val.str "SYSTEM"),
      ("used_mb", Val.num 100)]]),
   ("count", Val.num 1)]

/-- The payload `tablespace_usage.collect` produces on `tbsTwoRows`. -/
def tbsTwoRowsPayload : Payload :=
  match TablespaceUsage.collect tbsTwoRows with
  | Except.ok (some p, _) => p
  | _ => []

/-- The payload `top_sessions.collect` produces on `tsOneRow`. -/
def tsOneRowPayload : Payload :=
  match TopSessions.collect tsOneRow none with
  | Except.ok (some p, _) => p
  | _ => []

/-- The payload `wait_events.collect` produces on `weOneRow`. -/
def weOneRowPayload : Payload :=
  match WaitEvents.collect weOneRow none with
  | Except.ok (some p, _) => p
  | _ => []

/-! ## Registry lemmas -/

/-- The contribution of one enabled metric to `collect_all`'s results. -/
def collectStep (conn : Conn) (m : Metric) : Option (String × Payload) :=
  match m.collect conn with
  | CollectOutcome.returns (some p) => if p.isEmpty then none else some (m.name, p)
  | _ => none

/-- The contribution of one enabled metric to `collect_all`'s error log. -/
def errStep (conn : Conn) (m : Metric) : Option String :=
  match m.collect conn with
  | CollectOutcome.raises e => some (errMsg m.name e)
  | _ => none

/-- The successful, non-empty `(name, payload)` entries of a metric list. -/
def goodResults (conn : Conn) (ms : List Metric) : List (String × Payload) :=
  ms.filterMap (collectStep conn)

/-- The error records produced by a metric list. -/
def badLogs (conn : Conn) (ms : List Metric) : List String :=
  ms.filterMap (errStep conn)

theorem collectAllAux_eq (conn : Conn) (ms : List Metric) :
    ∀ (res : List (String × Payload)) (errs : List String),
      collectAllAux conn ms res errs =
        ((goodResults conn ms).foldl (fun d e => dictInsert e.1 e.2 d) res,
         errs ++ badLogs conn ms) := by
  induction ms with
  | nil => intro res errs; simp [collectAllAux, goodResults, badLogs]
  | cons m ms ih =>
      intro res errs
      simp only [goodResults, badLogs, List.filterMap_cons, collectStep, errStep]
      cases hc : m.collect conn with
      | raises e =>
          simpa [collectAllAux, hc, goodResults, badLogs] using ih res (errs ++ [errMsg m.name e])
      | returns p =>
          cases p with
          | none => simpa [collectAllAux, hc, goodResults, badLogs] using ih res errs
          | some q =>
              by_cases hq : q.isEmpty
              · simpa [collectAllAux, hc, hq, goodResults, badLogs] using ih res errs
              · simpa [collectAllAux, hc, hq, goodResults, badLogs] using
                  ih (dictInsert m.name q res) errs

theorem dictInsert_of_not_mem {v : α} (l : List (String × α)) (h : k ∉ l.map Prod.fst) :
    dictInsert k v l = l ++ [(k, v)] := by
  induction l with
  | nil => rfl
  | cons e l ih =>
      simp only [List.map_cons, List.mem_cons] at h
      push_neg at h
      simp [dictInsert, Ne.symm h.1, ih h.2]

theorem foldl_dictInsert_of_disjoint {α : Type} :
    ∀ (l acc : List (String × α)), (l.map Prod.fst).Nodup →
      (∀ k ∈ l.map Prod.fst, k ∉ acc.map Prod.fst) →
      l.foldl (fun d e => dictInsert e.1 e.2 d) acc = acc ++ l := by
  intro l
  induction l with
  | nil => intro acc _ _; simp
  | cons e l ih =>
      intro acc hnd hdis
      simp only [List.map_cons, List.nodup_cons] at hnd
      have he : e.1 ∉ acc.map Prod.fst := hdis e.1 (by simp)
      have hstep : dictInsert e.1 e.2 acc = acc ++ [e] := by
        rw [dictInsert_of_not_mem acc he]
      simp only [List.foldl_cons, hstep]
      rw [ih (acc ++ [e]) hnd.2]
      · simp
      · intro k hk
        have hk' : k ∈ (e :: l).map Prod.fst := by simp [hk]
        intro hmem
        rw [List.map_append] at hmem
        rcases List.mem_append.mp hmem with hmem | hmem
        · exact hdis k hk' hmem
        · simp only [List.map_cons, List.map_nil, List.mem_singleton] at hmem
          exact hnd.1 (hmem ▸ hk)

theorem goodResults_names_sublist (conn : Conn) (ms : List Metric) :
    ((goodResults conn ms).map Prod.fst).Sublist (ms.map Metric.name) := by
  induction ms with
  | nil => simp [goodResults]
  | cons m ms ih =>
      simp only [goodResults, List.filterMap_cons, List.map_cons]
      cases hc : collectStep conn m with
      | none => exact ih.cons m.name
      | some e =>
          have : e.1 = m.name := by
            unfold collectStep at hc
            cases hm : m.collect conn with
            | raises _ => simp [hm] at hc
            | returns p =>
                cases p with
                | none => simp [hm] at hc
                | some q =>
                    by_cases hq : q.isEmpty <;> simp [hm, hq] at hc
                    rw [← hc]
          simp only [List.map_cons, this]
          exact ih.cons₂ m.name

theorem mem_goodResults (conn : Conn) (ms : List Metric) (nm : String) (p : Payload) :
    (nm, p) ∈ goodResults conn ms ↔
      ∃ m ∈ ms, m.name = nm ∧ m.collect conn = CollectOutcome.returns (some p) ∧
        p.isEmpty = false := by
  simp only [goodResults, List.mem_filterMap]
  constructor
  · rintro ⟨m, hm, hstep⟩
    refine ⟨m, hm, ?_⟩
    unfold collectStep at hstep
    cases hc : m.collect conn with
    | raises _ => simp [hc] at hstep
    | returns q =>
        cases q with
        | none => simp [hc] at hstep
        | some d =>
            by_cases hd : d.isEmpty <;> simp [hc, hd] at hstep
            obtain ⟨h1, h2⟩ := hstep
            subst h1; subst h2
            exact ⟨rfl, rfl, by simpa using hd⟩
  · rintro ⟨m, hm, hnm, hc, hp⟩
    exact ⟨m, hm, by simp [collectStep, hc, hp, hnm]⟩

theorem mem_of_dictLookup_eq_some {v : α} {l : List (String × α)}
    (h : dictLookup k l = some v) : (k, v) ∈ l := by
  induction l with
  | nil => simp [dictLookup] at h
  | cons e l ih =>
      obtain ⟨a, b⟩ := e
      by_cases he : a = k
      · subst he
        simp only [dictLookup, if_pos rfl] at h
        injection h with h
        subst h
        exact List.mem_cons_self _ _
      · simp only [dictLookup, if_neg he] at h
        exact List.mem_cons_of_mem _ (ih h)

theorem dictLookup_eq_some_of_mem {v : α} {l : List (String × α)}
    (hnd : (l.map Prod.fst).Nodup) (h : (k, v) ∈ l) : dictLookup k l = some v := by
  induction l with
  | nil => simp at h
  | cons e l ih =>
      simp only [List.map_cons, List.nodup_cons] at hnd
      rcases List.mem_cons.mp h with h | h
      · rw [← h]
        simp [dictLookup]
      · have hk : e.1 ≠ k := by
          intro hek
          exact hnd.1 (hek ▸ (List.mem_map_of_mem Prod.fst h))
        simp only [dictLookup, if_neg hk]
        exact ih hnd.2 h

theorem dictLookup_eq_none_iff {l : List (String × α)} :
    dictLookup k l = none ↔ k ∉ l.map Prod.fst := by
  induction l with
  | nil => simp [dictLookup]
  | cons e l ih =>
      obtain ⟨a, b⟩ := e
      by_cases he : a = k
      · subst he
        simp [dictLookup]
      · simp [dictLookup, he, ih, Ne.symm he]

theorem isEmpty_false_iff (l : List α) : l.isEmpty = false ↔ l ≠ [] := by
  cases l <;> simp

theorem Registry.WF.names_values_eq {r : Registry} (h : r.WF) :
    r.get_all_metrics.map Metric.name = r.metrics.map Prod.fst := by
  unfold Registry.get_all_metrics
  rw [List.map_map]
  exact List.map_congr_left fun p hp => h.2 p hp

theorem Registry.WF.enabled_names_nodup {r : Registry} (h : r.WF) :
    (r.get_enabled_metrics.map Metric.name).Nodup := by
  have hall : (r.get_all_metrics.map Metric.name).Nodup := by
    rw [h.names_values_eq]; exact h.1
  have hsub : (r.get_enabled_metrics.map Metric.name).Sublist
      (r.get_all_metrics.map Metric.name) :=
    List.Sublist.map _ (List.filter_sublist _)
  exact List.Nodup.sublist hsub hall

theorem Registry.collect_all_spec (r : Registry) (conn : Conn) (h : r.WF) :
    r.collect_all conn =
      (goodResults conn r.get_enabled_metrics, badLogs conn r.get_enabled_metrics) := by
  unfold Registry.collect_all
  rw [collectAllAux_eq, foldl_dictInsert_of_disjoint _ _ ?nodup ?fresh]
  · simp
  case nodup =>
    exact List.Nodup.sublist (goodResults_names_sublist conn _) h.enabled_names_nodup
  case fresh => simp

theorem Registry.get_metric_iff (r : Registry) (h : r.WF) (nm : String) (m : Metric) :
    r.get_metric nm = some m ↔ (nm, m) ∈ r.metrics :=
  ⟨mem_of_dictLookup_eq_some, dictLookup_eq_some_of_mem h.1⟩

theorem Registry.mem_enabled_iff (r : Registry) (h : r.WF) (m : Metric) (nm : String) :
    (m ∈ r.get_enabled_metrics ∧ m.name = nm) ↔
      (r.get_metric nm = some m ∧ m.enabled = true) := by
  constructor
  · rintro ⟨hm, hnm⟩
    unfold Registry.get_enabled_metrics at hm
    rw [List.mem_filter] at hm
    obtain ⟨hmem, hen⟩ := hm
    unfold Registry.get_all_metrics at hmem
    obtain ⟨p, hp, hpm⟩ := List.mem_map.mp hmem
    obtain ⟨a, b⟩ := p
    simp only at hpm
    rw [hpm] at hp
    have ha : m.name = a := h.2 (a, m) hp
    have hna : nm = a := by rw [← hnm, ha]
    subst hna
    exact ⟨(r.get_metric_iff h nm m).mpr hp, by simpa using hen⟩
  · rintro ⟨hlk, hen⟩
    have hmem := (r.get_metric_iff h nm m).mp hlk
    have hname : m.name = nm := h.2 (nm, m) hmem
    refine ⟨?_, hname⟩
    unfold Registry.get_enabled_metrics Registry.get_all_metrics
    rw [List.mem_filter]
    exact ⟨List.mem_map.mpr ⟨(nm, m), hmem, rfl⟩, by simpa using hen⟩

theorem goodResults_append (conn : Conn) (l₁ l₂ : List Metric) :
    goodResults conn (l₁ ++ l₂) = goodResults conn l₁ ++ goodResults conn l₂ := by
  simp [goodResults, List.filterMap_append]

theorem badLogs_append (conn : Conn) (l₁ l₂ : List Metric) :
    badLogs conn (l₁ ++ l₂) = badLogs conn l₁ ++ badLogs conn l₂ := by
  simp [badLogs, List.filterMap_append]

theorem badLogs_eq_nil_of_returns (conn : Conn) (l : List Metric)
    (h : ∀ m ∈ l, ∃ op, m.collect conn = CollectOutcome.returns op) :
    badLogs conn l = [] := by
  induction l with
  | nil => rfl
  | cons m l ih =>
      obtain ⟨op, hop⟩ := h m (List.mem_cons_self m l)
      simp only [badLogs, List.filterMap_cons, errStep, hop]
      exact ih fun m' hm' => h m' (List.mem_cons_of_mem m hm')

theorem goodResults_names_of_success (conn : Conn) (l : List Metric)
    (h : ∀ m ∈ l, ∃ p, m.collect conn = CollectOutcome.returns (some p) ∧ p ≠ []) :
    (goodResults conn l).map Prod.fst = l.map Metric.name := by
  induction l with
  | nil => rfl
  | cons m l ih =>
      obtain ⟨p, hp, hne⟩ := h m (List.mem_cons_self m l)
      have hpe : p.isEmpty = false := (isEmpty_false_iff p).mpr hne
      simp only [goodResults, List.filterMap_cons, collectStep, hp, hpe, List.map_cons]
      simp only [Bool.false_eq_true, if_false]
      rw [List.map_cons]
      exact congrArg _ (ih fun m' hm' => h m' (List.mem_cons_of_mem m hm'))

theorem goodResults_length_of_success (conn : Conn) (l : List Metric)
    (h : ∀ m ∈ l, ∃ p, m.collect conn = CollectOutcome.returns (some p) ∧ p ≠ []) :
    (goodResults conn l).length = l.length := by
  have := goodResults_names_of_success conn l h
  have h1 : ((goodResults conn l).map Prod.fst).length = (l.map Metric.name).length := by
    rw [this]
  simpa using h1

theorem dictLookup_dictInsert_self {v : α} (l : List (String × α)) :
    dictLookup k (dictInsert k v l) = some v := by
  induction l with
  | nil => simp [dictInsert, dictLookup]
  | cons e l ih =>
      by_cases he : e.1 = k
      · simp [dictInsert, dictLookup, he]
      · simp [dictInsert, dictLookup, he, ih]

theorem dictInsert_keys {v : α} (l : List (String × α)) :
    (dictInsert k v l).map Prod.fst =
      if k ∈ l.map Prod.fst then l.map Prod.fst else l.map Prod.fst ++ [k] := by
  induction l with
  | nil => simp [dictInsert]
  | cons e l ih =>
      by_cases he : e.1 = k
      · subst he
        simp [dictInsert]
      · simp only [dictInsert, if_neg he, List.map_cons, ih]
        by_cases hk : k ∈ l.map Prod.fst
        · simp [hk, Ne.symm he]
        · simp [hk, Ne.symm he]

theorem bucketAppend_lookup (cat : String) (m : Metric) (l : List (String × List Metric)) :
    dictLookup cat (bucketAppend cat m l) = some ((dictLookup cat l).getD [] ++ [m]) := by
  induction l with
  | nil => simp [bucketAppend, dictLookup]
  | cons e l ih =>
      by_cases he : e.1 = cat
      · simp [bucketAppend, dictLookup, he]
      · simp [bucketAppend, dictLookup, he, ih]

/-! ## Fixture well-formedness -/

theorem regSample_metrics_eq :
    regSample.metrics = [("A", mAlpha), ("B", mBeta), ("C", mGamma)] := rfl

theorem regSample_WF : regSample.WF := by
  constructor
  · show (["A", "B", "C"] : List String).Nodup
    decide
  · intro p hp
    rw [regSample_metrics_eq] at hp
    simp only [List.mem_cons, List.not_mem_nil, or_false] at hp
    rcases hp with h | h | h <;> subst h <;> rfl

theorem regFail_metrics_eq :
    regFail.metrics = [("A", mAlpha), ("D", mDelta), ("C", mGamma), ("E", mEps)] := rfl

theorem regFail_WF : regFail.WF := by
  constructor
  · show (["A", "D", "C", "E"] : List String).Nodup
    decide
  · intro p hp
    rw [regFail_metrics_eq] at hp
    simp only [List.mem_cons, List.not_mem_nil, or_false] at hp
    rcases hp with h | h | h | h <;> subst h <;> rfl

theorem regFail_enabled_eq : regFail.get_enabled_metrics = [mAlpha, mDelta, mEps] := rfl

/-! ## Claims -/

/-- Claim C2: for every registry and connection, the `collect_all` result
has an entry `p` under a name iff a metric is registered under that name,
is enabled, and its `collect` returned a payload that is neither `None` nor
an empty mapping — so disabled metrics and metrics returning `None` or `{}`
never appear in the result. -/
theorem collect_all_entry_iff (r : Registry) (conn : Conn) (h : r.WF)
    (nm : String) (p : Payload) :
    dictLookup nm (r.collect_all conn).1 = some p ↔
      ∃ m, r.get_metric nm = some m ∧ m.enabled = true ∧
        m.collect conn = CollectOutcome.returns (some p) ∧ p ≠ [] := by
  rw [r.collect_all_spec conn h]
  have hnd : ((goodResults conn r.get_enabled_metrics).map Prod.fst).Nodup :=
    List.Nodup.sublist (goodResults_names_sublist conn _) h.enabled_names_nodup
  constructor
  · intro hlk
    have hmem := mem_of_dictLookup_eq_some hlk
    rw [mem_goodResults] at hmem
    obtain ⟨m, hm, hnm, hc, hp⟩ := hmem
    obtain ⟨hg, he⟩ := (r.mem_enabled_iff h m nm).mp ⟨hm, hnm⟩
    exact ⟨m, hg, he, hc, (isEmpty_false_iff p).mp hp⟩
  · rintro ⟨m, hlk, hen, hc, hp⟩
    obtain ⟨hm, hnm⟩ := (r.mem_enabled_iff h m nm).mpr ⟨hlk, hen⟩
    exact dictLookup_eq_some_of_mem hnd ((mem_goodResults conn _ nm p).mpr
      ⟨m, hm, hnm, hc, (isEmpty_false_iff p).mpr hp⟩)

/-- Witness for C2, on the §8 scenario-1 registry: `A` (enabled, non-empty
payload) appears with its payload; `B` (returned `None`) and `C` (disabled)
do not. -/
theorem collect_all_entry_iff_witness :
    dictLookup "A" (regSample.collect_all Conn.mk).1 =
      some [("x", Val.list [Val.num 1, Val.num 2])] ∧
    dictLookup "B" (regSample.collect_all Conn.mk).1 = none ∧
    dictLookup "C" (regSample.collect_all Conn.mk).1 = none := by
  refine ⟨?_, ?_, ?_⟩
  · exact (collect_all_entry_iff regSample Conn.mk regSample_WF "A"
      [("x", Val.list [Val.num 1, Val.num 2])]).mpr
      ⟨mAlpha, rfl, rfl, rfl, by simp⟩
  · cases hlk : dictLookup "B" (regSample.collect_all Conn.mk).1 with
    | none => rfl
    | some p =>
        obtain ⟨m, hg, _, hc, _⟩ :=
          (collect_all_entry_iff regSample Conn.mk regSample_WF "B" p).mp hlk
        have hm : m = mBeta := by
          have : some m = some mBeta := by rw [← hg]; rfl
          injection this
        subst hm
        have : CollectOutcome.returns (p := some p) = CollectOutcome.returns none := by
          rw [← hc]; rfl
        injection this
  · cases hlk : dictLookup "C" (regSample.collect_all Conn.mk).1 with
    | none => rfl
    | some p =>
        obtain ⟨m, hg, hen, _, _⟩ :=
          (collect_all_entry_iff regSample Conn.mk regSample_WF "C" p).mp hlk
        have hm : m = mGamma := by
          have : some m = some mGamma := by rw [← hg]; rfl
          injection this
        subst hm
        exact Bool.noConfusion hen

/-- Claim C3: registering two distinct instances with the same name and
category leaves the name index with the second instance under that name
(last write wins, no error), while the category bucket gains both instances
(a duplicate entry). -/
theorem register_duplicate_name (r : Registry) (m1 m2 : Metric)
    (hname : m1.name = m2.name) (hcat : m1.category = m2.category)
    (hne : m1 ≠ m2) :
    ((r.register m1).register m2).get_metric m2.name = some m2 ∧
    ((r.register m1).register m2).get_metrics_by_category m2.category =
      r.get_metrics_by_category m2.category ++ [m1, m2] := by
  constructor
  · exact dictLookup_dictInsert_self _
  · show (dictLookup m2.category
        (bucketAppend m2.category m2 (bucketAppend m1.category m1 r.categories))).getD []
      = (dictLookup m2.category r.categories).getD [] ++ [m1, m2]
    rw [bucketAppend_lookup, hcat, bucketAppend_lookup]
    simp [Registry.get_metrics_by_category]

/-- Witness for C3, the §8 scenario-3: two distinct `"Overview"` instances
registered into the empty registry; lookup yields the second, the
`"sessions"` bucket holds both. -/
theorem register_duplicate_name_witness :
    ((Registry.empty.register mDup1).register mDup2).get_metric "Overview" = some mDup2 ∧
    ((Registry.empty.register mDup1).register mDup2).get_metrics_by_category "sessions" =
      [mDup1, mDup2] := by
  have hne : mDup1 ≠ mDup2 := by
    intro h
    exact Bool.noConfusion (congrArg Metric.enabled h)
  have h := register_duplicate_name Registry.empty mDup1 mDup2 rfl rfl hne
  exact ⟨h.1, h.2⟩

/-- Claim C1: if among a registry's enabled metrics exactly one raises from
`collect` and every other one succeeds with a non-empty payload, then
`collect_all` catches the exception, logs exactly one error record naming
that metric, excludes it from the result, and returns a mapping of size
N−1 containing every other enabled metric's payload. -/
theorem collect_all_isolates_failure (r : Registry) (conn : Conn) (h : r.WF)
    (m : Metric) (e : String)
    (hm : m ∈ r.get_enabled_metrics)
    (hraise : m.collect conn = CollectOutcome.raises e)
    (hothers : ∀ m' ∈ r.get_enabled_metrics, m'.name ≠ m.name →
      ∃ p, m'.collect conn = CollectOutcome.returns (some p) ∧ p ≠ []) :
    (r.collect_all conn).2 = [errMsg m.name e] ∧
    (r.collect_all conn).1.length = r.get_enabled_metrics.length - 1 ∧
    dictLookup m.name (r.collect_all conn).1 = none ∧
    (∀ m' ∈ r.get_enabled_metrics, m'.name ≠ m.name → ∀ p,
      m'.collect conn = CollectOutcome.returns (some p) →
      dictLookup m'.name (r.collect_all conn).1 = some p) := by
  obtain ⟨l₁, l₂, hset⟩ := List.append_of_mem hm
  have hnd : ((l₁ ++ m :: l₂).map Metric.name).Nodup := by
    rw [← hset]; exact h.enabled_names_nodup
  rw [List.map_append, List.map_cons] at hnd
  obtain ⟨hndl, hndr, hdisj⟩ := List.nodup_append.mp hnd
  have hmnot : m.name ∉ (l₁ ++ l₂).map Metric.name := by
    intro hmem
    rw [List.map_append] at hmem
    rcases List.mem_append.mp hmem with hx | hx
    · exact hdisj hx (List.mem_cons_self _ _)
    · exact (List.nodup_cons.mp hndr).1 hx
  have hnd2 : ((l₁ ++ l₂).map Metric.name).Nodup := by
    rw [List.map_append]
    exact List.nodup_append.mpr
      ⟨hndl, (List.nodup_cons.mp hndr).2,
       fun x hx hx2 => hdisj hx (List.mem_cons_of_mem _ hx2)⟩
  have hsucc : ∀ m' ∈ l₁ ++ l₂,
      ∃ p, m'.collect conn = CollectOutcome.returns (some p) ∧ p ≠ [] := by
    intro m' hm'
    apply hothers
    · rw [hset]
      rcases List.mem_append.mp hm' with hx | hx
      · exact List.mem_append.mpr (Or.inl hx)
      · exact List.mem_append.mpr (Or.inr (List.mem_cons_of_mem _ hx))
    · intro heq
      apply hmnot
      rw [← heq]
      exact List.mem_map_of_mem Metric.name hm'
  have hspec := r.collect_all_spec conn h
  have hgood : (r.collect_all conn).1 = goodResults conn l₁ ++ goodResults conn l₂ := by
    rw [hspec]
    show goodResults conn r.get_enabled_metrics = _
    rw [hset, goodResults_append]
    congr 1
    simp [goodResults, List.filterMap_cons, collectStep, hraise]
  have hbad : (r.collect_all conn).2 = [errMsg m.name e] := by
    rw [hspec]
    show badLogs conn r.get_enabled_metrics = _
    rw [hset, badLogs_append]
    have h1 : badLogs conn l₁ = [] := badLogs_eq_nil_of_returns conn l₁
      (fun m' hm' => (hsucc m' (List.mem_append.mpr (Or.inl hm'))).elim
        fun p hp => ⟨some p, hp.1⟩)
    have h2 : badLogs conn l₂ = [] := badLogs_eq_nil_of_returns conn l₂
      (fun m' hm' => (hsucc m' (List.mem_append.mpr (Or.inr hm'))).elim
        fun p hp => ⟨some p, hp.1⟩)
    have h3 : badLogs conn (m :: l₂) = errMsg m.name e :: badLogs conn l₂ := by
      simp [badLogs, List.filterMap_cons, errStep, hraise]
    rw [h1, h3, h2]
    rfl
  have hkeys : ((goodResults conn l₁ ++ goodResults conn l₂).map Prod.fst).Sublist
      ((l₁ ++ l₂).map Metric.name) := by
    rw [← goodResults_append]
    exact goodResults_names_sublist conn (l₁ ++ l₂)
  have hlen : (r.collect_all conn).1.length = r.get_enabled_metrics.length - 1 := by
    rw [hgood, hset]
    have hl := goodResults_length_of_success conn (l₁ ++ l₂) hsucc
    rw [goodResults_append] at hl
    simp only [List.length_append, List.length_cons] at hl ⊢
    omega
  have hnone : dictLookup m.name (r.collect_all conn).1 = none := by
    rw [hgood]
    exact dictLookup_eq_none_iff.mpr fun hmem => hmnot (hkeys.subset hmem)
  refine ⟨hbad, hlen, hnone, ?_⟩
  intro m' hm' hne p hp
  have hm'' : m' ∈ l₁ ++ l₂ := by
    rw [hset] at hm'
    rcases List.mem_append.mp hm' with hx | hx
    · exact List.mem_append.mpr (Or.inl hx)
    · rcases List.mem_cons.mp hx with hx | hx
      · exact absurd (congrArg Metric.name hx) hne
      · exact List.mem_append.mpr (Or.inr hx)
  obtain ⟨p', hp', hpne⟩ := hsucc m' hm''
  have hpp : p = p' := by
    rw [hp] at hp'
    injection hp' with h'
    injection h'
  rw [hgood]
  apply dictLookup_eq_some_of_mem (List.Nodup.sublist hkeys hnd2)
  rw [← goodResults_append, mem_goodResults]
  exact ⟨m', hm'', rfl, hp, (isEmpty_false_iff p).mpr (by rw [hpp]; exact hpne)⟩

/-- Witness for C1, the §8 scenario-2 on `regFail` (enabled metrics `A`,
`D`, `E`; only `D` raises): one error record naming `D`, result of size 2,
`D` absent, `A` present with its payload. -/
theorem collect_all_isolates_failure_witness :
    (regFail.collect_all Conn.mk).2 = [errMsg "D" "boom"] ∧
    (regFail.collect_all Conn.mk).1.length = 2 ∧
    dictLookup "D" (regFail.collect_all Conn.mk).1 = none ∧
    dictLookup "A" (regFail.collect_all Conn.mk).1 =
      some [("x", Val.list [Val.num 1, Val.num 2])] := by
  have hothers : ∀ m' ∈ regFail.get_enabled_metrics, m'.name ≠ mDelta.name →
      ∃ p, m'.collect Conn.mk = CollectOutcome.returns (some p) ∧ p ≠ [] := by
    intro m' hm' hne
    rw [regFail_enabled_eq] at hm'
    simp only [List.mem_cons, List.not_mem_nil, or_false] at hm'
    rcases hm' with hx | hx | hx
    · exact ⟨[("x", Val.list [Val.num 1, Val.num 2])], by rw [hx]; rfl, by simp⟩
    · exact absurd (congrArg Metric.name hx) hne
    · exact ⟨[("w", Val.num 4)], by rw [hx]; rfl, by simp⟩
  have h := collect_all_isolates_failure regFail Conn.mk regFail_WF mDelta "boom"
    (by rw [regFail_enabled_eq]; simp) rfl hothers
  refine ⟨h.1, ?_, h.2.2.1, ?_⟩
  · have hl := h.2.1
    rw [regFail_enabled_eq] at hl
    simpa using hl
  · exact h.2.2.2 mAlpha (by rw [regFail_enabled_eq]; simp) (by decide) _ rfl

theorem regOrder_metrics_eq :
    regOrder.metrics = [("A", mAlpha), ("C", mGamma), ("E", mEps)] := rfl

theorem regOrder_WF : regOrder.WF := by
  constructor
  · show (["A", "C", "E"] : List String).Nodup
    decide
  · intro p hp
    rw [regOrder_metrics_eq] at hp
    simp only [List.mem_cons, List.not_mem_nil, or_false] at hp
    rcases hp with h | h | h <;> subst h <;> rfl

/-- Claim C9: within one `collect_all` invocation the enabled metrics are
visited in the name-index order (observed through the order of the result
keys when every enabled metric succeeds non-empty), and that index order is
first-registration order: registering a fresh name appends it at the end,
while re-registering an existing name keeps the key order unchanged. For a
fixed registry the visiting order is therefore deterministic across
invocations. -/
theorem collect_all_registration_order (r : Registry) (conn : Conn) (h : r.WF)
    (hsucc : ∀ m ∈ r.get_enabled_metrics,
      ∃ p, m.collect conn = CollectOutcome.returns (some p) ∧ p ≠ [])
    (m : Metric) :
    (r.collect_all conn).1.map Prod.fst = r.get_enabled_metrics.map Metric.name ∧
    ((r.register m).metrics.map Prod.fst =
      if m.name ∈ r.metrics.map Prod.fst then r.metrics.map Prod.fst
      else r.metrics.map Prod.fst ++ [m.name]) := by
  constructor
  · rw [r.collect_all_spec conn h]
    exact goodResults_names_of_success conn _ hsucc
  · exact dictInsert_keys r.metrics

/-- Witness for C9 on `regOrder` (enabled metrics `A`, `E`, both
succeeding): the result keys come out as `["A", "E"]`, re-registering a
metric named `"A"` keeps the key order, and registering the fresh name
`"D"` appends it. -/
theorem collect_all_registration_order_witness :
    (regOrder.collect_all Conn.mk).1.map Prod.fst = ["A", "E"] ∧
    (regOrder.register mDelta).metrics.map Prod.fst = ["A", "C", "E", "D"] := by
  have hsucc : ∀ m ∈ regOrder.get_enabled_metrics,
      ∃ p, m.collect Conn.mk = CollectOutcome.returns (some p) ∧ p ≠ [] := by
    intro m hm
    have he : regOrder.get_enabled_metrics = [mAlpha, mEps] := rfl
    rw [he] at hm
    simp only [List.mem_cons, List.not_mem_nil, or_false] at hm
    rcases hm with hx | hx
    · exact ⟨[("x", Val.list [Val.num 1, Val.num 2])], by rw [hx]; rfl, by simp⟩
    · exact ⟨[("w", Val.num 4)], by rw [hx]; rfl, by simp⟩
  have h := collect_all_registration_order regOrder Conn.mk regOrder_WF hsucc mDelta
  constructor
  · rw [h.1]; rfl
  · rw [h.2, regOrder_metrics_eq]
    have : mDelta.name ∉ ([("A", mAlpha), ("C", mGamma), ("E", mEps)].map
        (Prod.fst (α := String) (β := Metric))) := by
      show "D" ∉ (["A", "C", "E"] : List String)
      decide
    rw [if_neg this]
    rfl

/-- Claim C5: `log_all` and `store_all` dispatch each `(name, payload)`
entry to the metric registered under that name; an entry whose name is
unregistered, or whose payload is `None` or empty, contributes no record
(and the per-metric `log_data`/`store_data` are themselves no-ops on
`None`/empty data). -/
theorem log_store_all_dispatch (r : Registry)
    (pre post : List (String × Option Payload)) (nm : String)
    (pl : Option Payload) (sid : Option String) (now now' : String)
    (m0 : Metric) :
    ((r.get_metric nm = none ∨ pl = none ∨ pl = some [] →
        r.log_all (pre ++ (nm, pl) :: post) sid now now' =
          r.log_all pre sid now now' ++ r.log_all post sid now now' ∧
        r.store_all (pre ++ (nm, pl) :: post) sid =
          r.store_all pre sid ++ r.store_all post sid) ∧
     (∀ m p, r.get_metric nm = some m → pl = some p → p ≠ [] →
        r.log_all (pre ++ (nm, pl) :: post) sid now now' =
          r.log_all pre sid now now' ++
            (m.log_data (some p) sid now now').map (fun rec => (m.name, rec)) ++
            r.log_all post sid now now' ∧
        r.store_all (pre ++ (nm, pl) :: post) sid =
          r.store_all pre sid ++
            (m.store_data (some p) sid).map (fun row => (m.name, row)) ++
            r.store_all post sid) ∧
     m0.log_data none sid now now' = [] ∧
     m0.log_data (some []) sid now now' = [] ∧
     m0.store_data none sid = [] ∧
     m0.store_data (some []) sid = []) := by
  refine ⟨?_, ?_, rfl, rfl, rfl, rfl⟩
  · intro h
    have hnil : (match r.get_metric nm with
        | none => ([] : List (String × LogEntry))
        | some m => if pyTruthy pl then
            (m.log_data pl sid now now').map fun rec => (m.name, rec)
          else []) = [] := by
      rcases h with h | h | h
      · rw [h]
      · rw [h]; cases r.get_metric nm <;> simp [pyTruthy]
      · rw [h]; cases r.get_metric nm <;> simp [pyTruthy]
    have hnil' : (match r.get_metric nm with
        | none => ([] : List (String × Row))
        | some m => if pyTruthy pl then
            (m.store_data pl sid).map fun row => (m.name, row)
          else []) = [] := by
      rcases h with h | h | h
      · rw [h]
      · rw [h]; cases r.get_metric nm <;> simp [pyTruthy]
      · rw [h]; cases r.get_metric nm <;> simp [pyTruthy]
    constructor
    · unfold Registry.log_all
      rw [List.map_append, List.map_cons, List.flatten_append, List.flatten_cons, hnil]
      simp
    · unfold Registry.store_all
      rw [List.map_append, List.map_cons, List.flatten_append, List.flatten_cons, hnil']
      simp
  · intro m p hg hpl hp
    subst hpl
    have hpt : pyTruthy (some p) = true := by
      simp [pyTruthy, isEmpty_false_iff, hp]
    constructor
    · unfold Registry.log_all
      rw [List.map_append, List.map_cons, List.flatten_append, List.flatten_cons]
      rw [hg]
      simp only [hpt, if_true]
      simp [List.append_assoc]
    · unfold Registry.store_all
      rw [List.map_append, List.map_cons, List.flatten_append, List.flatten_cons]
      rw [hg]
      simp only [hpt, if_true]
      simp [List.append_assoc]

/-- Witness for C5 on `regSample`: an unregistered name (`"Z"`) and an
empty payload under `"B"` contribute nothing, while the entry for `"A"`
dispatches to `mAlpha`'s `log_data`/`store_data`. -/
theorem log_store_all_dispatch_witness :
    regSample.log_all [("Z", some [("q", Val.num 9)]), ("B", some []),
        ("A", some [("x", Val.num 1)])] (some "s1") "T1" "T2" =
      [("A", [("timestamp", Val.str "T1"), ("metric", Val.str "A"),
              ("sample_id", Val.str "s1"), ("data", Val.obj [("x", Val.num 1)])])] ∧
    regSample.store_all [("Z", some [("q", Val.num 9)]), ("B", some []),
        ("A", some [("x", Val.num 1)])] (some "s1") = [] := by
  have hZ := (log_store_all_dispatch regSample [] [("B", some []),
      ("A", some [("x", Val.num 1)])] "Z" (some [("q", Val.num 9)])
      (some "s1") "T1" "T2" mAlpha).1 (Or.inl rfl)
  have hB := (log_store_all_dispatch regSample [] [("A", some [("x", Val.num 1)])]
      "B" (some []) (some "s1") "T1" "T2" mAlpha).1 (Or.inr (Or.inr rfl))
  have hA := ((log_store_all_dispatch regSample [] [] "A" (some [("x", Val.num 1)])
      (some "s1") "T1" "T2" mAlpha).2.1) mAlpha [("x", Val.num 1)] rfl rfl (by simp)
  simp only [List.nil_append] at hZ hB hA
  constructor
  · rw [hZ.1, hB.1, hA.1]
    rfl
  · rw [hZ.2, hB.2, hA.2]
    rfl

/-- Counterexample to C6 as stated: the record `log_data` appends on
non-empty data does not carry a field keyed `metric_name` — its four keys
are `timestamp`, `metric`, `sample_id`, `data` (the metric's name sits
under the key `metric`). -/
theorem log_data_metric_name_cex :
    ¬ ∃ rec : LogEntry,
        mAlpha.log_data (some [("x", Val.num 1)]) none "T1" "T2" = [rec] ∧
        rec.map Prod.fst = ["timestamp", "metric_name", "sample_id", "data"] := by
  rintro ⟨rec, h1, h2⟩
  have h3 : ([[("timestamp", Val.str "T1"), ("metric", Val.str "A"),
      ("sample_id", Val.str "T2"), ("data", Val.obj [("x", Val.num 1)])]] :
      List LogEntry) = [rec] := h1
  injection h3 with h4 _
  rw [← h4] at h2
  exact absurd h2 (by decide)

/-- Claim C6 (amended): on non-empty data one `log_data` call appends
exactly one record, a four-field envelope whose keys, in order, are
`timestamp`, `metric`, `sample_id`, `data` — the field holding the metric
name is keyed `metric`, not `metric_name` — with the timestamp under
`timestamp`, the metric's name under `metric`, the payload under `data`,
and the `sample_id` field holding the supplied identifier with Python `or`
semantics: when `sample_id` is not supplied (`None`, or the falsy empty
string), a second wall-clock reading is used as the fallback sample
identifier. -/
theorem log_data_envelope (m : Metric) (p : Payload) (hp : p ≠ [])
    (sid : Option String) (now now' : String) :
    ∃ rec : LogEntry, m.log_data (some p) sid now now' = [rec] ∧
      rec.map Prod.fst = ["timestamp", "metric", "sample_id", "data"] ∧
      dictLookup "timestamp" rec = some (Val.str now) ∧
      dictLookup "metric" rec = some (Val.str m.name) ∧
      dictLookup "sample_id" rec = some (Val.str (pyStrOr sid now')) ∧
      dictLookup "data" rec = some (Val.obj p) := by
  have hne : p.isEmpty = false := (isEmpty_false_iff p).mpr hp
  refine ⟨[("timestamp", Val.str now), ("metric", Val.str m.name),
    ("sample_id", Val.str (pyStrOr sid now')), ("data", Val.obj p)],
    ?_, rfl, rfl, rfl, rfl, rfl⟩
  simp [Metric.log_data, hne]

/-- Witness for the amended C6: concrete record for metric `A` with data
`{"x": 1}`, no sample id and wall-clock readings `T1` (timestamp) and `T2`
(fallback). -/
theorem log_data_envelope_witness :
    mAlpha.log_data (some [("x", Val.num 1)]) none "T1" "T2" =
      [[("timestamp", Val.str "T1"), ("metric", Val.str "A"),
        ("sample_id", Val.str "T2"), ("data", Val.obj [("x", Val.num 1)])]] := by
  obtain ⟨rec, h1, -, -, -, -, -⟩ :=
    log_data_envelope mAlpha [("x", Val.num 1)] (List.cons_ne_nil _ _) none "T1" "T2"
  have h0 : ([[("timestamp", Val.str "T1"), ("metric", Val.str "A"),
      ("sample_id", Val.str "T2"), ("data", Val.obj [("x", Val.num 1)])]] :
      List LogEntry) = [rec] := h1
  rw [h1]
  injection h0 with h7 _
  rw [← h7]

/-- Counterexample to C4 as stated: with a backend whose `v$statname`
lookup raises, `session_overview.collect` returns `None` but writes no
diagnostic record at all — the backend error raised inside
`_get_statistic_id` is swallowed silently, contradicting "writes a
diagnostic record to the metric's own log channel" for every backend
error. -/
theorem collect_statname_error_unlogged_cex :
    soBadStat.statname "session logical reads" = Except.error "ORA-00942" ∧
    SessionOverview.collect soBadStat = Except.ok (none, []) := ⟨rfl, rfl⟩

/-- Claim C4 (amended): no backend exception ever propagates out of
`collect` (it always returns, with `None` on failure); a backend error
raised by the metric's main query — or, for `wait_events`, by its only
query — is caught and logged as exactly one diagnostic record on the
metric's own channel with a `None` return; but a backend error raised
inside `session_overview`'s statistic-id lookup yields `None` with no log
record. -/
theorem collect_never_propagates (b : SessionOverview.SOBackend)
    (wb : ℤ → Except String (List WaitEvents.WaitRow)) (limit : Option ℤ)
    (e1 e2 : String) :
    (∃ res, SessionOverview.collect b = Except.ok res) ∧
    (∃ res, WaitEvents.collect wb limit = Except.ok res) ∧
    (pyTruthyOptInt (SessionOverview.getStatisticId b "session logical reads") = true →
     pyTruthyOptInt (SessionOverview.getStatisticId b "physical reads") = true →
     pyTruthyOptInt (SessionOverview.getStatisticId b "CPU used by this session") = true →
     b.mainQuery ((SessionOverview.getStatisticId b "session logical reads").getD 0)
         ((SessionOverview.getStatisticId b "physical reads").getD 0)
         ((SessionOverview.getStatisticId b "CPU used by this session").getD 0) =
       Except.error e1 →
     SessionOverview.collect b =
       Except.ok (none, ["Error collecting session overview: " ++ e1])) ∧
    (wb (limit.getD 20) = Except.error e2 →
     WaitEvents.collect wb limit =
       Except.ok (none, ["Error collecting wait events: " ++ e2])) := by
  refine ⟨?_, ?_, ?_, ?_⟩
  · by_cases hcond :
        (pyTruthyOptInt (SessionOverview.getStatisticId b "session logical reads") &&
         pyTruthyOptInt (SessionOverview.getStatisticId b "physical reads") &&
         pyTruthyOptInt (SessionOverview.getStatisticId b "CPU used by this session")) = true
    · cases hq : b.mainQuery
          ((SessionOverview.getStatisticId b "session logical reads").getD 0)
          ((SessionOverview.getStatisticId b "physical reads").getD 0)
          ((SessionOverview.getStatisticId b "CPU used by this session").getD 0) with
      | error e =>
          exact ⟨(none, ["Error collecting session overview: " ++ e]),
            by simp [SessionOverview.collect, hcond, hq]⟩
      | ok r =>
          cases r with
          | none => exact ⟨(none, []), by simp [SessionOverview.collect, hcond, hq]⟩
          | some row =>
              exact ⟨(some (SessionOverview.payloadOfRow row), []),
                by simp [SessionOverview.collect, hcond, hq]⟩
    · exact ⟨(none, []), by simp [SessionOverview.collect, hcond]⟩
  · cases hq : wb (limit.getD 20) with
    | error e =>
        exact ⟨(none, ["Error collecting wait events: " ++ e]),
          by simp [WaitEvents.collect, hq]⟩
    | ok rows =>
        exact ⟨(some [("wait_events", Val.list (rows.map WaitEvents.toEvent)),
          ("count", Val.num (rows.map WaitEvents.toEvent).length)], []),
          by simp [WaitEvents.collect, hq]⟩
  · intro h1 h2 h3 hq
    simp [SessionOverview.collect, h1, h2, h3, hq]
  · intro hq
    simp [WaitEvents.collect, hq]

/-- Witness for the amended C4: a working statistic lookup with a failing
main query logs one record and returns `None`; a raising `wait_events`
query logs one record and returns `None`. -/
theorem collect_never_propagates_witness :
    SessionOverview.collect soMainErr =
      Except.ok (none, ["Error collecting session overview: ORA-01017"]) ∧
    WaitEvents.collect (fun _ => Except.error "ORA-12170") none =
      Except.ok (none, ["Error collecting wait events: ORA-12170"]) := by
  obtain ⟨-, -, h3, h4⟩ := collect_never_propagates soMainErr
    (fun _ => Except.error "ORA-12170") none "ORA-01017" "ORA-12170"
  exact ⟨h3 rfl rfl rfl rfl, h4 rfl⟩

theorem topSessions_rowsOfVals_obj (sid now : String) (recs : List Payload) :
    rowsOfVals (TopSessions.rowOfVal sid now) (recs.map Val.obj) =
      some (recs.map (TopSessions.rowOfSession sid now)) := by
  induction recs with
  | nil => rfl
  | cons r recs ih => simp [rowsOfVals, TopSessions.rowOfVal, ih]

theorem tablespace_rowsOfVals_obj (sid now : String) (recs : List Payload) :
    rowsOfVals (TablespaceUsage.rowOfVal sid now) (recs.map Val.obj) =
      some (recs.map (TablespaceUsage.rowOfTablespace sid now)) := by
  induction recs with
  | nil => rfl
  | cons r recs ih => simp [rowsOfVals, TablespaceUsage.rowOfVal, ih]

/-- Claim C7: a list-shaped metric persisting a payload whose primary list
holds `k` (dict) records under sample id `s` writes exactly `k` rows, each
carrying `sample_id = s` at bind position 0, the shared timestamp at
position 1, and the sub-record's field values (`top_sessions`: `sid` at
position 2, `cpu_seconds` at position 8; `tablespace_usage`: `tablespace`
at position 2, `used_mb` at position 5). -/
theorem list_store_one_row_per_record
    (dataT dataB : Payload) (recsT recsB : List Payload) (s now : String)
    (hs : s ≠ "")
    (hT : dictLookup "sessions" dataT = some (Val.list (recsT.map Val.obj)))
    (hB : dictLookup "tablespaces" dataB = some (Val.list (recsB.map Val.obj))) :
    (∃ rows, TopSessions.store_impl dataT (some s) now = some rows ∧
      rows.length = recsT.length ∧
      ∀ (i : ℕ) (rec : Payload), recsT[i]? = some rec →
        ∃ row : List Val, rows[i]? = some row ∧
          row[0]? = some (Val.str s) ∧ row[1]? = some (Val.str now) ∧
          row[2]? = some (dictGet rec "sid") ∧
          row[8]? = some (dictGet rec "cpu_seconds")) ∧
    (∃ rows, TablespaceUsage.store_impl dataB (some s) now = some rows ∧
      rows.length = recsB.length ∧
      ∀ (i : ℕ) (rec : Payload), recsB[i]? = some rec →
        ∃ row : List Val, rows[i]? = some row ∧
          row[0]? = some (Val.str s) ∧ row[1]? = some (Val.str now) ∧
          row[2]? = some (dictGet rec "tablespace") ∧
          row[5]? = some (dictGet rec "used_mb")) := by
  have hsid : pyStrOr (some s) now = s := by simp [pyStrOr, hs]
  constructor
  · refine ⟨recsT.map (TopSessions.rowOfSession s now), ?_, by simp, ?_⟩
    · rw [TopSessions.store_impl, hT, hsid]
      exact topSessions_rowsOfVals_obj s now recsT
    · intro i rec hrec
      refine ⟨TopSessions.rowOfSession s now rec, ?_, rfl, rfl, rfl, rfl⟩
      rw [List.getElem?_map, hrec]
      rfl
  · refine ⟨recsB.map (TablespaceUsage.rowOfTablespace s now), ?_, by simp, ?_⟩
    · rw [TablespaceUsage.store_impl, hB, hsid]
      exact tablespace_rowsOfVals_obj s now recsB
    · intro i rec hrec
      refine ⟨TablespaceUsage.rowOfTablespace s now rec, ?_, rfl, rfl, rfl, rfl⟩
      rw [List.getElem?_map, hrec]
      rfl

/-- Witness for C7, the §8 scenario-4: the one-session payload persisted
under `sample_id = "s1"` yields exactly one row whose bind values carry
`'s1'`, the timestamp, `sid = 1` and `cpu_seconds = 2.5`; likewise one row
for the one-tablespace payload. -/
theorem list_store_one_row_per_record_witness :
    (TopSessions.store_impl oneSessionPayload (some "s1") "T").map List.length =
      some 1 ∧
    (TopSessions.store_impl oneSessionPayload (some "s1") "T").bind
        (fun rows => rows[0]?.bind fun (row : List Val) => row[0]?) = some (Val.str "s1") ∧
    (TopSessions.store_impl oneSessionPayload (some "s1") "T").bind
        (fun rows => rows[0]?.bind fun (row : List Val) => row[8]?) = some (Val.num (5 / 2)) ∧
    (TablespaceUsage.store_impl oneTbsPayload (some "s1") "T").map List.length =
      some 1 ∧
    (TablespaceUsage.store_impl oneTbsPayload (some "s1") "T").bind
        (fun rows => rows[0]?.bind fun (row : List Val) => row[2]?) =
      some (Val.str "SYSTEM") := by
  obtain ⟨⟨rowsT, hT1, hT2, hT3⟩, ⟨rowsB, hB1, hB2, hB3⟩⟩ :=
    list_store_one_row_per_record oneSessionPayload oneTbsPayload
      [[("sid", Val.num 1), ("cpu_seconds", Val.num (5 / 2))]]
      [[("tablespace", Val.str "SYSTEM"), ("used_mb", Val.num 100)]]
      "s1" "T" (by decide) rfl rfl
  obtain ⟨rowT, hrT, fT0, fT1, fT2, fT8⟩ :=
    hT3 0 [("sid", Val.num 1), ("cpu_seconds", Val.num (5 / 2))] rfl
  obtain ⟨rowB, hrB, fB0, fB1, fB2, fB5⟩ :=
    hB3 0 [("tablespace", Val.str "SYSTEM"), ("used_mb", Val.num 100)] rfl
  refine ⟨?_, ?_, ?_, ?_, ?_⟩
  · rw [hT1]
    show some rowsT.length = some 1
    rw [hT2]
    rfl
  · rw [hT1]
    show rowsT[0]?.bind (fun (row : List Val) => row[0]?) = some (Val.str "s1")
    rw [hrT]
    exact fT0
  · rw [hT1]
    show rowsT[0]?.bind (fun (row : List Val) => row[8]?) = some (Val.num (5 / 2))
    rw [hrT]
    exact fT8.trans rfl
  · rw [hB1]
    show some rowsB.length = some 1
    rw [hB2]
    rfl
  · rw [hB1]
    show rowsB[0]?.bind (fun (row : List Val) => row[2]?) = some (Val.str "SYSTEM")
    rw [hrB]
    exact fB2.trans rfl

/-- Claim C8: a scalar-shaped metric persisting a non-empty payload with no
`sample_id` supplied falls back to a wall-clock (timestamp) string as the
sample identifier and inserts exactly one row carrying that identifier and
the payload's scalar field values — shown for `redo_metrics` (fallback is
the row's own timestamp) and `session_overview` (fallback is a separate
`now()` reading). -/
theorem scalar_store_fallback (p q : Payload) (hp : p ≠ []) (hq : q ≠ [])
    (nowR nowSid nowTs : String) :
    RedoMetrics.store_data (some p) none nowR =
      [[Val.str nowR, Val.str nowR, dictGet p "redo_size",
        dictGet p "redo_writes", dictGet p "redo_write_time"]] ∧
    SessionOverview.store_data (some q) none nowSid nowTs =
      [[Val.str nowSid, Val.str nowTs, dictGet q "total_sessions",
        dictGet q "active_sessions", dictGet q "inactive_sessions",
        dictGet q "blocked_sessions", dictGet q "logical_reads_mb",
        dictGet q "physical_reads_mb", dictGet q "cpu_seconds"]] := by
  have hp' : p.isEmpty = false := (isEmpty_false_iff p).mpr hp
  have hq' : q.isEmpty = false := (isEmpty_false_iff q).mpr hq
  constructor
  · simp [RedoMetrics.store_data, RedoMetrics.store_impl, hp', pyStrOr]
  · simp [SessionOverview.store_data, SessionOverview.store_impl, hq', pyStrOr]

/-- Witness for C8, the §8 scenario-5 payload with no sample id: exactly
one row whose sample identifier is the timestamp fallback. -/
theorem scalar_store_fallback_witness :
    RedoMetrics.store_data (some redoPayload) none "T" =
      [[Val.str "T", Val.str "T", Val.num 100, Val.num 5, Val.num 3]] ∧
    SessionOverview.store_data (some [("total_sessions", Val.num 7)]) none "T1" "T2" =
      [[Val.str "T1", Val.str "T2", Val.num 7, Val.nil, Val.nil, Val.nil,
        Val.nil, Val.nil, Val.nil]] := by
  obtain ⟨h1, h2⟩ := scalar_store_fallback redoPayload [("total_sessions", Val.num 7)]
    (by simp [redoPayload]) (by simp) "T" "T1" "T2"
  constructor
  · rw [h1]
    rfl
  · rw [h2]
    rfl

/-- Claim C10: whenever one of the list-shaped collectors
(`tablespace_usage`, `top_sessions`, `wait_events`) returns a payload, the
payload's `count` field equals the length of its primary record list. -/
theorem collect_count_matches_list
    (tb : Except String (List TablespaceUsage.TbsRow))
    (tsb : TopSessions.TSBackend)
    (wb : ℤ → Except String (List WaitEvents.WaitRow)) (limT limW : Option ℤ) :
    (∀ p logs, TablespaceUsage.collect tb = Except.ok (some p, logs) →
      dictLookup "count" p =
        (listLen (dictLookup "tablespaces" p)).map fun n => Val.num (n : ℚ)) ∧
    (∀ p logs, TopSessions.collect tsb limT = Except.ok (some p, logs) →
      dictLookup "count" p =
        (listLen (dictLookup "sessions" p)).map fun n => Val.num (n : ℚ)) ∧
    (∀ p logs, WaitEvents.collect wb limW = Except.ok (some p, logs) →
      dictLookup "count" p =
        (listLen (dictLookup "wait_events" p)).map fun n => Val.num (n : ℚ)) := by
  refine ⟨?_, ?_, ?_⟩
  · intro p logs h
    cases hq : tb with
    | error e => simp [TablespaceUsage.collect, hq] at h
    | ok rows =>
        simp only [TablespaceUsage.collect, hq] at h
        simp only [Except.ok.injEq, Prod.mk.injEq, Option.some.injEq] at h
        obtain ⟨hp, -⟩ := h
        subst hp
        simp [dictLookup, listLen]
  · intro p logs h
    by_cases hcond :
        (pyTruthyOptInt (TopSessions.getStatisticId tsb "session logical reads") &&
         pyTruthyOptInt (TopSessions.getStatisticId tsb "CPU used by this session")) = true
    · cases hq : tsb.mainQuery
          ((TopSessions.getStatisticId tsb "session logical reads").getD 0)
          ((TopSessions.getStatisticId tsb "CPU used by this session").getD 0)
          (limT.getD 20) with
      | error e => simp [TopSessions.collect, hcond, hq] at h
      | ok rows =>
          simp only [TopSessions.collect, hcond, if_true, hq] at h
          simp only [Except.ok.injEq, Prod.mk.injEq, Option.some.injEq] at h
          obtain ⟨hp, -⟩ := h
          subst hp
          simp [dictLookup, listLen]
    · simp [TopSessions.collect, hcond] at h
  · intro p logs h
    cases hq : wb (limW.getD 20) with
    | error e => simp [WaitEvents.collect, hq] at h
    | ok rows =>
        simp only [WaitEvents.collect, hq] at h
        simp only [Except.ok.injEq, Prod.mk.injEq, Option.some.injEq] at h
        obtain ⟨hp, -⟩ := h
        subst hp
        simp [dictLookup, listLen]

/-- Witness for C10 on concrete backends: two tablespace rows give
`count = 2` matching the list length; one session row and one wait-event
row give `count = 1`. -/
theorem collect_count_matches_list_witness :
    (dictLookup "count" tbsTwoRowsPayload =
      (listLen (dictLookup "tablespaces" tbsTwoRowsPayload)).map fun n => Val.num (n : ℚ)) ∧
    dictLookup "count" tbsTwoRowsPayload = some (Val.num 2) ∧
    (dictLookup "count" tsOneRowPayload =
      (listLen (dictLookup "sessions" tsOneRowPayload)).map fun n => Val.num (n : ℚ)) ∧
    dictLookup "count" tsOneRowPayload = some (Val.num 1) ∧
    (dictLookup "count" weOneRowPayload =
      (listLen (dictLookup "wait_events" weOneRowPayload)).map fun n => Val.num (n : ℚ)) ∧
    dictLookup "count" weOneRowPayload = some (Val.num 1) := by
  obtain ⟨h1, h2, h3⟩ := collect_count_matches_list tbsTwoRows tsOneRow weOneRow none none
  exact ⟨h1 tbsTwoRowsPayload [] rfl, rfl,
    h2 tsOneRowPayload [] rfl, rfl,
    h3 weOneRowPayload [] rfl, rfl⟩
